import Mathlib

/-!
Shallow embedding of the ReWear swap & points settlement engine.

The embedded code is the Express route module for swaps (create / accept /
decline / cancel handlers) together with the mongoose schemas it writes
through: the User model (`backend/models/User.js`), the Item model
(`backend/models/Item.js`), the Swap and Activity models.  Documents live in
lists indexed by numeric ids standing for mongoose ObjectIds; each `await`ed
database write is an individual, immediately persisted list update (there is
no transaction in the source), and a mongoose `save()` that fails validation
(an enum or `min` violation) is modelled by the handler taking its `catch`
branch — returning a 500 response while every earlier write stays applied.
-/

namespace ReWear

/-- User document (`backend/models/User.js`): the fields the swap engine
touches — the points balance and the stored level tier. -/
structure User where
  id : Nat
  points : Int
  level : String
deriving DecidableEq, Repr

/-- Item document (`backend/models/Item.js`): owner, title, points valuation
(schema: `required, min: 0, max: 10000`, hence a `Nat`) and status
(enum `pending/available/swapped/removed`). -/
structure Item where
  id : Nat
  user_id : Nat
  title : String
  points : Nat
  status : String
deriving DecidableEq, Repr

/-- Swap document: requester, target item, optional offered item,
status (enum `pending/accepted/declined/cancelled/completed`, schema default
`pending`), points_offered (schema `min: 0`) and message. -/
structure Swap where
  id : Nat
  requester_id : Nat
  item_id : Nat
  offered_item_id : Option Nat
  status : String
  points_offered : Int
  message : String
deriving DecidableEq, Repr

/-- Activity document: actor, event type (schema enum), description, signed
point delta, optional related item. -/
structure Activity where
  user_id : Nat
  type : String
  description : String
  points : Int
  related_item_id : Option Nat
deriving DecidableEq, Repr

/-- The database state the swap routes read and write. `nextSwapId` models
mongoose assigning a fresh `_id` to a newly constructed Swap. -/
structure St where
  users : List User
  items : List Item
  swaps : List Swap
  activities : List Activity
  nextSwapId : Nat
deriving DecidableEq, Repr

/-- An HTTP response from a handler: status code, optional `error` field,
optional `message` field, and the created swap id on a 201. -/
structure Resp where
  code : Nat
  error : Option String
  message : Option String
  swapId : Option Nat
deriving DecidableEq, Repr

def errResp (c : Nat) (e : String) : Resp :=
  { code := c, error := some e, message := none, swapId := none }

def msgResp (c : Nat) (m : String) : Resp :=
  { code := c, error := none, message := some m, swapId := none }

/-- The insufficient-points response: `error: 'Insufficient points'` plus the
message interpolating the required valuation and the requester's available
balance (the route's `user?.points || 0`). -/
def insufficientResp (required : Nat) (available : Int) : Resp :=
  { code := 400, error := some "Insufficient points",
    message := some s!"You need {required} points to redeem this item. You have {available} points.",
    swapId := none }

def createdResp (sid : Nat) (m : String) : Resp :=
  { code := 201, error := none, message := some m, swapId := some sid }

/-- The `activitySchema.type` enum — note it does NOT contain `point_redemption`,
which the create route nevertheless writes on the redemption path. -/
def activityTypeEnum : List String :=
  ["item_listed", "swap_request", "swap_completed", "swap_declined", "item_liked", "points_earned"]

/-- The `swapSchema.status` enum. -/
def swapStatusEnum : List String :=
  ["pending", "accepted", "declined", "cancelled", "completed"]

/-- Mongoose validation run by `activity.save()`: the type must be in the
schema enum. -/
def activityValid (a : Activity) : Bool :=
  activityTypeEnum.contains a.type

/-- Mongoose validation run by `swap.save()`: status in the enum,
`points_offered` at least the schema `min` of 0, and the message within the
schema `maxlength` of 500 (the `trim: true` setter has already trimmed the
stored value by this point). -/
def swapDocValid (s : Swap) : Bool :=
  swapStatusEnum.contains s.status && decide (0 ≤ s.points_offered)
    && decide (s.message.length ≤ 500)

/-- Source `userSchema.methods.updateLevel`: re-derive the stored level tier from
the current points balance. Called by the admin point-adjustment route, and
by nothing in the swap routes. -/
def updateLevel (u : User) : User :=
  if u.points ≥ 1000 then { u with level := "Swap Master" }
  else if u.points ≥ 500 then { u with level := "Eco Champion" }
  else if u.points ≥ 100 then { u with level := "Fashion Enthusiast" }
  else { u with level := "Newcomer" }

/-- Source `User.findByIdAndUpdate` with a points `$inc` applied to one
document: bump the matching user's balance, touching nothing else (in
particular not the stored level). -/
def bump (tid : Nat) (d : Int) (u : User) : User :=
  if u.id == tid then { u with points := u.points + d } else u

def incPoints (l : List User) (tid : Nat) (d : Int) : List User :=
  l.map (bump tid d)

def patchItem (iid : Nat) (s : String) (it : Item) : Item :=
  if it.id == iid then { it with status := s } else it

/-- Source `Item.findByIdAndUpdate` setting the status, over the item collection. -/
def setItemStatus (l : List Item) (iid : Nat) (s : String) : List Item :=
  l.map (patchItem iid s)

def patchSwap (sid : Nat) (s : String) (sw : Swap) : Swap :=
  if sw.id == sid then { sw with status := s } else sw

/-- A swap document's `status = s; save()` over the swap collection. -/
def setSwapStatus (l : List Swap) (sid : Nat) (s : String) : List Swap :=
  l.map (patchSwap sid s)

def findUser (st : St) (uid : Nat) : Option User :=
  st.users.find? (fun u => u.id == uid)

def findItem (st : St) (iid : Nat) : Option Item :=
  st.items.find? (fun it => it.id == iid)

def findSwap (st : St) (sid : Nat) : Option Swap :=
  st.swaps.find? (fun sw => sw.id == sid)

def userPoints (st : St) (uid : Nat) : Int :=
  match findUser st uid with
  | some u => u.points
  | none => 0

def userLevel (st : St) (uid : Nat) : Option String :=
  (findUser st uid).map (fun u => u.level)

def itemStatus (st : St) (iid : Nat) : Option String :=
  (findItem st iid).map (fun it => it.status)

def swapStatus (st : St) (sid : Nat) : Option String :=
  (findSwap st sid).map (fun sw => sw.status)

def totalPoints (st : St) : Int :=
  (st.users.map (fun u => u.points)).sum

/-- Source `Swap.findOne` on requester, item and status pending — the
duplicate-request guard only looks at `pending` swaps. -/
def hasPendingSwap (st : St) (rid iid : Nat) : Bool :=
  st.swaps.any (fun sw => sw.requester_id == rid && sw.item_id == iid && sw.status == "pending")

/-- Validation of an `offered_item_id` when one is supplied: it must exist,
belong to the requester, and be available; returns the error response of the
first failing check. -/
def checkOfferedItem (st : St) (rid : Nat) : Option Nat → Option Resp
  | none => none
  | some oid =>
    match findItem st oid with
    | none => some (errResp 404 "Offered item not found")
    | some oi =>
      if oi.user_id ≠ rid then some (errResp 403 "You can only offer your own items")
      else if oi.status ≠ "available" then some (errResp 400 "Offered item must be available")
      else none

/-- The redemption settlement inside `create`, in source order: flip the item
to `swapped`, debit the requester by the item valuation, credit the owner by
the same amount. Three separate `findByIdAndUpdate` writes; no level update. -/
def settleRedemption (st : St) (rid iid : Nat) (item : Item) : St :=
  let st1 := { st with items := setItemStatus st.items iid "swapped" }
  let st2 := { st1 with users := incPoints st1.users rid (-(item.points : Int)) }
  { st2 with users := incPoints st2.users item.user_id ((item.points : Int)) }

/-- Model of the mongoose `trim: true` setter (JavaScript `String.trim`):
strip leading and trailing whitespace from the stored value. -/
def trimString (s : String) : String :=
  String.mk (((s.data.dropWhile Char.isWhitespace).reverse.dropWhile Char.isWhitespace).reverse)

/-- The Swap document `create` constructs: no status is passed, so the schema
default `pending` applies; `points_offered || 0` is the identity on a numeric
offer; and the schema's `trim: true` setter on `message` stores the trimmed
string. -/
def newSwap (sid rid iid : Nat) (oid : Option Nat) (po : Int) (msg : String) : Swap :=
  { id := sid, requester_id := rid, item_id := iid, offered_item_id := oid,
    status := "pending", points_offered := po, message := trimString msg }

def mkActivity (uid : Nat) (ty desc : String) (pts : Int) (rel : Option Nat) : Activity :=
  { user_id := uid, type := ty, description := desc, points := pts, related_item_id := rel }

/-- The tail of `create` shared by both paths: construct the Swap,
`swap.save()` (validated), then construct and `save()` the Activity whose
type and delta depend on the redemption threshold. A failed save is the
handler's catch branch: a 500 response with all earlier writes kept. -/
def finishCreate (st : St) (rid iid : Nat) (oid : Option Nat)
    (pointsOffered : Int) (msg : String) (item : Item) : St × Resp :=
  let swap := newSwap st.nextSwapId rid iid oid pointsOffered msg
  if swapDocValid swap then
    let st1 := { st with swaps := st.swaps ++ [swap], nextSwapId := st.nextSwapId + 1 }
    let redeemed := (item.points : Int) ≤ pointsOffered
    let act := mkActivity rid
      (if redeemed then "point_redemption" else "swap_request")
      (if redeemed then s!"Redeemed {item.title} with {item.points} points"
        else s!"Requested swap for {item.title}")
      (if redeemed then -(item.points : Int) else 0)
      (some iid)
    if activityValid act then
      ({ st1 with activities := st1.activities ++ [act] },
        createdResp swap.id
          (if redeemed then "Item redeemed successfully" else "Swap request created successfully"))
    else (st1, errResp 500 "Failed to create swap request")
  else (st, errResp 500 "Failed to create swap request")

/-- Handler `router.post` of the swaps router — create a swap request. Checks in source order:
item exists and is available; the populated owner document exists (a missing
owner makes `item.user_id._id` throw, caught as a 500); not the requester's
own item; no duplicate pending swap; offered-item validation; then, when
`points_offered >= item.points`, the balance check followed by the immediate
redemption settlement; finally the shared swap/activity creation tail. -/
def createSwap (st : St) (rid iid : Nat) (oid : Option Nat)
    (pointsOffered : Int) (msg : String) : St × Resp :=
  match findItem st iid with
  | none => (st, errResp 404 "Item not found or not available")
  | some item =>
    if item.status = "available" then
      match findUser st item.user_id with
      | none => (st, errResp 500 "Failed to create swap request")
      | some _ =>
        if item.user_id = rid then (st, errResp 400 "Cannot swap your own item")
        else if hasPendingSwap st rid iid then
          (st, errResp 400 "You already have a pending swap request for this item")
        else
          match checkOfferedItem st rid oid with
          | some e => (st, e)
          | none =>
            if (item.points : Int) ≤ pointsOffered then
              match findUser st rid with
              | none => (st, insufficientResp item.points 0)
              | some u =>
                if u.points < (item.points : Int) then
                  (st, insufficientResp item.points u.points)
                else
                  finishCreate (settleRedemption st rid iid item) rid iid oid pointsOffered msg item
            else finishCreate st rid iid oid pointsOffered msg item
    else (st, errResp 404 "Item not found or not available")

/-- Source `Math.floor(points * 0.1)` on an item valuation. The schema bounds the
valuation to `0 ≤ points ≤ 10000`, a range on which the double-precision
product rounds to a value with the exact floor, so this is natural-number
division by 10. -/
def pointsToAward (p : Nat) : Nat := p / 10

/-- Source `activity.save()` under mongoose validation: `none` is a thrown
`ValidationError`. -/
def saveActivity (st : St) (a : Activity) : Option St :=
  if activityValid a then some { st with activities := st.activities ++ [a] } else none

/-- Handler `router.put accept`: the owner of the target item accepts a
pending swap. Note there is no check of the item's own status. Writes in
source order: swap to `completed`, item to `swapped`, the 10% award to
requester then owner, two `swap_completed` activities. -/
def acceptSwap (st : St) (userId sid : Nat) : St × Resp :=
  match findSwap st sid with
  | none => (st, errResp 404 "Swap request not found")
  | some sw =>
    match findItem st sw.item_id with
    | none => (st, errResp 500 "Failed to accept swap request")
    | some item =>
      if item.user_id ≠ userId then
        (st, errResp 403 "Only the item owner can accept swap requests")
      else if sw.status ≠ "pending" then
        (st, errResp 400 "Swap request is no longer pending")
      else
        let st1 := { st with swaps := setSwapStatus st.swaps sid "completed" }
        let st2 := { st1 with items := setItemStatus st1.items item.id "swapped" }
        let award := pointsToAward item.points
        let st3 := { st2 with users := incPoints st2.users sw.requester_id (award : Int) }
        let st4 := { st3 with users := incPoints st3.users userId (award : Int) }
        let actReq := mkActivity sw.requester_id "swap_completed"
          s!"Successfully swapped {item.title}" (award : Int) (some item.id)
        match saveActivity st4 actReq with
        | none => (st4, errResp 500 "Failed to accept swap request")
        | some st5 =>
          let actOwn := mkActivity userId "swap_completed"
            s!"Accepted swap for {item.title}" (award : Int) (some item.id)
          match saveActivity st5 actOwn with
          | none => (st5, errResp 500 "Failed to accept swap request")
          | some st6 => (st6, msgResp 200 "Swap request accepted successfully")

/-- Handler `router.put decline`: the owner declines a pending swap; the swap
goes to `declined` and one zero-delta `swap_declined` activity is recorded
for the requester. -/
def declineSwap (st : St) (userId sid : Nat) : St × Resp :=
  match findSwap st sid with
  | none => (st, errResp 404 "Swap request not found")
  | some sw =>
    match findItem st sw.item_id with
    | none => (st, errResp 500 "Failed to decline swap request")
    | some item =>
      if item.user_id ≠ userId then
        (st, errResp 403 "Only the item owner can decline swap requests")
      else if sw.status ≠ "pending" then
        (st, errResp 400 "Swap request is no longer pending")
      else
        let st1 := { st with swaps := setSwapStatus st.swaps sid "declined" }
        let act := mkActivity sw.requester_id "swap_declined"
          s!"Swap request for {item.title} was declined" 0 (some item.id)
        match saveActivity st1 act with
        | none => (st1, errResp 500 "Failed to decline swap request")
        | some st2 => (st2, msgResp 200 "Swap request declined successfully")

/-- Handler `router.put cancel`: the requester cancels a pending swap; only
the swap status changes. -/
def cancelSwap (st : St) (userId sid : Nat) : St × Resp :=
  match findSwap st sid with
  | none => (st, errResp 404 "Swap request not found")
  | some sw =>
    if sw.requester_id ≠ userId then
      (st, errResp 403 "Only the requester can cancel swap requests")
    else if sw.status ≠ "pending" then
      (st, errResp 400 "Swap request is no longer pending")
    else
      ({ st with swaps := setSwapStatus st.swaps sid "cancelled" },
        msgResp 200 "Swap request cancelled successfully")

/-! ### Helper lemmas about the document-collection updates -/

theorem bump_id (tid : Nat) (d : Int) (u : User) : (bump tid d u).id = u.id := by
  unfold bump; split <;> rfl

theorem patchItem_id (iid : Nat) (s : String) (it : Item) : (patchItem iid s it).id = it.id := by
  unfold patchItem; split <;> rfl

theorem patchSwap_id (sid : Nat) (s : String) (sw : Swap) : (patchSwap sid s sw).id = sw.id := by
  unfold patchSwap; split <;> rfl

theorem find?_incPoints (l : List User) (tid uid : Nat) (d : Int) :
    (incPoints l tid d).find? (fun u => u.id == uid)
      = (l.find? (fun u => u.id == uid)).map (bump tid d) := by
  induction l with
  | nil => rfl
  | cons a l ih =>
    simp only [incPoints, List.map_cons, List.find?, bump_id]
    cases h : (a.id == uid) with
    | true => simp
    | false => simpa [incPoints] using ih

theorem find?_setItemStatus (l : List Item) (iid jid : Nat) (s : String) :
    (setItemStatus l iid s).find? (fun it => it.id == jid)
      = (l.find? (fun it => it.id == jid)).map (patchItem iid s) := by
  induction l with
  | nil => rfl
  | cons a l ih =>
    simp only [setItemStatus, List.map_cons, List.find?, patchItem_id]
    cases h : (a.id == jid) with
    | true => simp
    | false => simpa [setItemStatus] using ih

theorem find?_setSwapStatus (l : List Swap) (sid tid : Nat) (s : String) :
    (setSwapStatus l sid s).find? (fun sw => sw.id == tid)
      = (l.find? (fun sw => sw.id == tid)).map (patchSwap sid s) := by
  induction l with
  | nil => rfl
  | cons a l ih =>
    simp only [setSwapStatus, List.map_cons, List.find?, patchSwap_id]
    cases h : (a.id == tid) with
    | true => simp
    | false => simpa [setSwapStatus] using ih

theorem incPoints_map_id (l : List User) (tid : Nat) (d : Int) :
    (incPoints l tid d).map (fun u => u.id) = l.map (fun u => u.id) := by
  induction l with
  | nil => rfl
  | cons a l ih =>
    simp only [incPoints, List.map_cons] at *
    rw [bump_id, ih]

theorem incPoints_of_forall_ne (l : List User) (tid : Nat) (d : Int) :
    (∀ u ∈ l, u.id ≠ tid) → incPoints l tid d = l := by
  induction l with
  | nil => intro _; rfl
  | cons a l ih =>
    intro h
    have ha : (a.id == tid) = false := by
      rw [beq_eq_false_iff_ne]
      exact h a (by simp)
    have ht := ih (fun u hu => h u (by simp [hu]))
    simp only [incPoints, List.map_cons] at *
    rw [ht, show bump tid d a = a by unfold bump; rw [ha]; rfl]

theorem sum_incPoints (l : List User) (tid : Nat) (d : Int) :
    (l.map (fun u => u.id)).Nodup → tid ∈ l.map (fun u => u.id) →
    ((incPoints l tid d).map (fun u => u.points)).sum
      = (l.map (fun u => u.points)).sum + d := by
  induction l with
  | nil => intro _ h; simp at h
  | cons a l ih =>
    intro hnd hmem
    simp only [List.map_cons, List.nodup_cons] at hnd
    simp only [List.map_cons, List.mem_cons] at hmem
    simp only [incPoints, List.map_cons, List.sum_cons]
    cases hmem with
    | inl h =>
      have hb : bump tid d a = { a with points := a.points + d } := by
        unfold bump
        rw [if_pos (beq_iff_eq.mpr h.symm)]
      have hrest : incPoints l tid d = l := by
        refine incPoints_of_forall_ne l tid d (fun u hu hc => hnd.1 ?_)
        have hm : u.id ∈ l.map (fun v => v.id) := List.mem_map_of_mem _ hu
        rw [hc, h] at hm
        exact hm
      simp only [incPoints] at hrest
      rw [hb, hrest]
      simp only []
      omega
    | inr h =>
      have hne : (a.id == tid) = false := by
        rw [beq_eq_false_iff_ne]
        intro e
        rw [← e] at h
        exact hnd.1 h
      simp only [incPoints] at ih
      rw [show bump tid d a = a by unfold bump; rw [hne]; rfl,
        ih hnd.2 h]
      omega

theorem findUser_id {st : St} {uid : Nat} {u : User} (h : findUser st uid = some u) :
    u.id = uid := by
  have hp := List.find?_some h
  simpa using hp

theorem findUser_mem {st : St} {uid : Nat} {u : User} (h : findUser st uid = some u) :
    u ∈ st.users :=
  List.mem_of_find?_eq_some h

theorem findUser_mem_ids {st : St} {uid : Nat} {u : User} (h : findUser st uid = some u) :
    uid ∈ st.users.map (fun v => v.id) := by
  rw [← findUser_id h]
  exact List.mem_map_of_mem _ (findUser_mem h)

theorem findItem_id {st : St} {iid : Nat} {it : Item} (h : findItem st iid = some it) :
    it.id = iid := by
  have hp := List.find?_some h
  simpa using hp

theorem findSwap_id {st : St} {sid : Nat} {sw : Swap} (h : findSwap st sid = some sw) :
    sw.id = sid := by
  have hp := List.find?_some h
  simpa using hp

theorem bump_eq_of_eq (tid : Nat) (d : Int) (u : User) (h : u.id = tid) :
    bump tid d u = { u with points := u.points + d } := by
  unfold bump
  rw [if_pos (beq_iff_eq.mpr h)]

theorem bump_eq_of_ne (tid : Nat) (d : Int) (u : User) (h : u.id ≠ tid) :
    bump tid d u = u := by
  unfold bump
  rw [beq_eq_false_iff_ne.mpr h]
  rfl

theorem find?_points_double_inc (l : List User) (a b uid : Nat) (da db : Int) (u : User)
    (hu : l.find? (fun v => v.id == uid) = some u) :
    (incPoints (incPoints l a da) b db).find? (fun v => v.id == uid)
      = some (bump b db (bump a da u)) := by
  rw [find?_incPoints, find?_incPoints, hu]
  rfl

theorem patchItem_eq_of_eq (iid : Nat) (s : String) (it : Item) (h : it.id = iid) :
    patchItem iid s it = { it with status := s } := by
  unfold patchItem
  rw [if_pos (beq_iff_eq.mpr h)]

theorem patchSwap_eq_of_eq (sid : Nat) (s : String) (sw : Swap) (h : sw.id = sid) :
    patchSwap sid s sw = { sw with status := s } := by
  unfold patchSwap
  rw [if_pos (beq_iff_eq.mpr h)]

theorem finishCreate_users (st : St) (rid iid : Nat) (oid : Option Nat)
    (po : Int) (msg : String) (item : Item) :
    ((finishCreate st rid iid oid po msg item).1).users = st.users := by
  unfold finishCreate
  dsimp only
  split
  · split <;> rfl
  · rfl

theorem finishCreate_items (st : St) (rid iid : Nat) (oid : Option Nat)
    (po : Int) (msg : String) (item : Item) :
    ((finishCreate st rid iid oid po msg item).1).items = st.items := by
  unfold finishCreate
  dsimp only
  split
  · split <;> rfl
  · rfl

/-! ### Reduction lemmas: what each handler does on each control path -/

theorem activityValid_of_type (a : Activity) (h : a.type = "swap_request" ∨ a.type = "swap_completed" ∨ a.type = "swap_declined") :
    activityValid a = true := by
  unfold activityValid
  rcases h with h | h | h <;> rw [h] <;> rfl

theorem createSwap_redeems (st : St) (rid iid : Nat) (po : Int) (msg : String)
    (item : Item) (u o : User)
    (hitem : findItem st iid = some item)
    (hava : item.status = "available")
    (ho : findUser st item.user_id = some o)
    (howner : item.user_id ≠ rid)
    (hdup : hasPendingSwap st rid iid = false)
    (hthr : (item.points : Int) ≤ po)
    (hu : findUser st rid = some u)
    (hbal : (item.points : Int) ≤ u.points) :
    createSwap st rid iid none po msg
      = finishCreate (settleRedemption st rid iid item) rid iid none po msg item := by
  have hnlt : ¬ (u.points < (item.points : Int)) := not_lt.mpr hbal
  unfold createSwap
  rw [hitem]
  simp [hava, ho, howner, hdup, checkOfferedItem, hthr, hu, hnlt]

theorem createSwap_insufficient (st : St) (rid iid : Nat) (po : Int) (msg : String)
    (item : Item) (u o : User)
    (hitem : findItem st iid = some item)
    (hava : item.status = "available")
    (ho : findUser st item.user_id = some o)
    (howner : item.user_id ≠ rid)
    (hdup : hasPendingSwap st rid iid = false)
    (hthr : (item.points : Int) ≤ po)
    (hu : findUser st rid = some u)
    (hlt : u.points < (item.points : Int)) :
    createSwap st rid iid none po msg = (st, insufficientResp item.points u.points) := by
  unfold createSwap
  rw [hitem]
  simp [hava, ho, howner, hdup, checkOfferedItem, hthr, hu, hlt]

theorem createSwap_request_success (st : St) (rid iid : Nat) (po : Int) (msg : String)
    (item : Item) (o : User)
    (hitem : findItem st iid = some item)
    (hava : item.status = "available")
    (ho : findUser st item.user_id = some o)
    (howner : item.user_id ≠ rid)
    (hdup : hasPendingSwap st rid iid = false)
    (hlt : po < (item.points : Int))
    (hpo : 0 ≤ po)
    (hmsg : (trimString msg).length ≤ 500) :
    createSwap st rid iid none po msg =
      ({ st with
          swaps := st.swaps ++ [newSwap st.nextSwapId rid iid none po msg],
          nextSwapId := st.nextSwapId + 1,
          activities := st.activities ++
            [mkActivity rid "swap_request" s!"Requested swap for {item.title}" 0 (some iid)] },
        createdResp st.nextSwapId "Swap request created successfully") := by
  have hnle : ¬ ((item.points : Int) ≤ po) := not_le.mpr hlt
  have hval : swapDocValid (newSwap st.nextSwapId rid iid none po msg) = true := by
    unfold swapDocValid newSwap
    simp only [Bool.and_eq_true]
    exact ⟨⟨rfl, decide_eq_true hpo⟩, decide_eq_true hmsg⟩
  unfold createSwap
  rw [hitem]
  simp only [hava, ho, howner, hdup, checkOfferedItem, hnle]
  unfold finishCreate
  simp only [hval, hnle, if_true, if_false, ite_false, ite_true]
  rw [if_pos (activityValid_of_type _ (Or.inl rfl))]
  simp [newSwap]

theorem acceptSwap_success (st : St) (userId sid : Nat) (sw : Swap) (item : Item)
    (hsw : findSwap st sid = some sw)
    (hit : findItem st sw.item_id = some item)
    (hown : item.user_id = userId)
    (hpend : sw.status = "pending") :
    acceptSwap st userId sid =
      ({ st with
          swaps := setSwapStatus st.swaps sid "completed",
          items := setItemStatus st.items item.id "swapped",
          users := incPoints (incPoints st.users sw.requester_id ((pointsToAward item.points : Nat) : Int)) userId ((pointsToAward item.points : Nat) : Int),
          activities := (st.activities ++
            [mkActivity sw.requester_id "swap_completed" s!"Successfully swapped {item.title}" ((pointsToAward item.points : Nat) : Int) (some item.id)]) ++
            [mkActivity userId "swap_completed" s!"Accepted swap for {item.title}" ((pointsToAward item.points : Nat) : Int) (some item.id)] },
        msgResp 200 "Swap request accepted successfully") := by
  unfold acceptSwap
  rw [hsw]
  simp only []
  rw [hit]
  simp [hown, hpend, saveActivity, activityValid_of_type, mkActivity]

theorem acceptSwap_not_pending (st : St) (userId sid : Nat) (sw : Swap) (item : Item)
    (hsw : findSwap st sid = some sw)
    (hit : findItem st sw.item_id = some item)
    (hown : item.user_id = userId)
    (hnp : sw.status ≠ "pending") :
    acceptSwap st userId sid = (st, errResp 400 "Swap request is no longer pending") := by
  unfold acceptSwap
  rw [hsw]
  simp only []
  rw [hit]
  simp [hown, hnp]

theorem declineSwap_not_pending (st : St) (userId sid : Nat) (sw : Swap) (item : Item)
    (hsw : findSwap st sid = some sw)
    (hit : findItem st sw.item_id = some item)
    (hown : item.user_id = userId)
    (hnp : sw.status ≠ "pending") :
    declineSwap st userId sid = (st, errResp 400 "Swap request is no longer pending") := by
  unfold declineSwap
  rw [hsw]
  simp only []
  rw [hit]
  simp [hown, hnp]

theorem cancelSwap_not_pending (st : St) (userId sid : Nat) (sw : Swap)
    (hsw : findSwap st sid = some sw)
    (hreq : sw.requester_id = userId)
    (hnp : sw.status ≠ "pending") :
    cancelSwap st userId sid = (st, errResp 400 "Swap request is no longer pending") := by
  unfold cancelSwap
  rw [hsw]
  simp [hreq, hnp]

/-! ### Claim theorems -/

/-- C5: for every successful redemption of an item with valuation V (any
points_offered at least V), the requester's balance decreases by exactly V,
the owner's balance increases by exactly V, and the sum of all users' points
is unchanged. -/
theorem redemption_balance_conservation
    (st : St) (rid iid : Nat) (po : Int) (msg : String)
    (item : Item) (u o : User)
    (hitem : findItem st iid = some item)
    (hava : item.status = "available")
    (ho : findUser st item.user_id = some o)
    (howner : item.user_id ≠ rid)
    (hdup : hasPendingSwap st rid iid = false)
    (hthr : (item.points : Int) ≤ po)
    (hu : findUser st rid = some u)
    (hbal : (item.points : Int) ≤ u.points)
    (hnd : (st.users.map (fun v => v.id)).Nodup) :
    userPoints (createSwap st rid iid none po msg).1 rid
        = u.points - (item.points : Int) ∧
    userPoints (createSwap st rid iid none po msg).1 item.user_id
        = o.points + (item.points : Int) ∧
    totalPoints (createSwap st rid iid none po msg).1 = totalPoints st := by
  have hcr := createSwap_redeems st rid iid po msg item u o hitem hava ho howner hdup hthr hu hbal
  have husers : (createSwap st rid iid none po msg).1.users
      = incPoints (incPoints st.users rid (-(item.points : Int))) item.user_id ((item.points : Int)) := by
    rw [hcr, finishCreate_users]
    rfl
  have hidu : u.id = rid := findUser_id hu
  have hido : o.id = item.user_id := findUser_id ho
  have hneq : rid ≠ item.user_id := fun e => howner e.symm
  unfold findUser at hu ho
  refine ⟨?_, ?_, ?_⟩
  · simp only [userPoints, findUser, husers]
    rw [find?_points_double_inc st.users rid item.user_id rid (-(item.points : Int)) ((item.points : Int)) u hu]
    rw [bump_eq_of_eq rid (-(item.points : Int)) u hidu]
    rw [bump_eq_of_ne item.user_id ((item.points : Int)) _ (by simpa [hidu] using hneq)]
    simp only []
    omega
  · simp only [userPoints, findUser, husers]
    rw [find?_points_double_inc st.users rid item.user_id item.user_id (-(item.points : Int)) ((item.points : Int)) o ho]
    rw [bump_eq_of_ne rid (-(item.points : Int)) o (by simpa [hido] using howner)]
    rw [bump_eq_of_eq item.user_id ((item.points : Int)) o hido]
  · have hmu : rid ∈ st.users.map (fun v => v.id) := by
      rw [← hidu]
      exact List.mem_map_of_mem _ (List.mem_of_find?_eq_some hu)
    have hmo : item.user_id ∈ st.users.map (fun v => v.id) := by
      rw [← hido]
      exact List.mem_map_of_mem _ (List.mem_of_find?_eq_some ho)
    simp only [totalPoints, husers]
    rw [sum_incPoints _ _ _ (by rw [incPoints_map_id]; exact hnd) (by rw [incPoints_map_id]; exact hmo),
      sum_incPoints _ _ _ hnd hmu]
    omega

/-- C6: for every successful accept of a pending swap whose target item has
valuation V, the requester's and the owner's balances each increase by
exactly floor(V * 0.10), the total system points increases by
2*floor(V*0.10), and the swap record changes only in status — in particular
the requester's points_offered is never debited. -/
theorem accept_bonus_award
    (st : St) (userId sid : Nat) (sw : Swap) (item : Item) (ur uo : User)
    (hsw : findSwap st sid = some sw)
    (hit : findItem st sw.item_id = some item)
    (hown : item.user_id = userId)
    (hpend : sw.status = "pending")
    (hur : findUser st sw.requester_id = some ur)
    (huo : findUser st userId = some uo)
    (hne : sw.requester_id ≠ userId)
    (hnd : (st.users.map (fun v => v.id)).Nodup) :
    userPoints (acceptSwap st userId sid).1 sw.requester_id
        = ur.points + ((pointsToAward item.points : Nat) : Int) ∧
    userPoints (acceptSwap st userId sid).1 userId
        = uo.points + ((pointsToAward item.points : Nat) : Int) ∧
    totalPoints (acceptSwap st userId sid).1
        = totalPoints st + 2 * ((pointsToAward item.points : Nat) : Int) ∧
    findSwap (acceptSwap st userId sid).1 sid = some { sw with status := "completed" } := by
  have hacc := acceptSwap_success st userId sid sw item hsw hit hown hpend
  have husers : (acceptSwap st userId sid).1.users
      = incPoints (incPoints st.users sw.requester_id ((pointsToAward item.points : Nat) : Int))
          userId ((pointsToAward item.points : Nat) : Int) := by
    rw [hacc]
  have hidr : ur.id = sw.requester_id := findUser_id hur
  have hido : uo.id = userId := findUser_id huo
  unfold findUser at hur huo
  refine ⟨?_, ?_, ?_, ?_⟩
  · simp only [userPoints, findUser, husers]
    rw [find?_points_double_inc st.users sw.requester_id userId sw.requester_id _ _ ur hur]
    rw [bump_eq_of_eq sw.requester_id _ ur hidr]
    rw [bump_eq_of_ne userId _ _ (by simpa [hidr] using hne)]
  · simp only [userPoints, findUser, husers]
    rw [find?_points_double_inc st.users sw.requester_id userId userId _ _ uo huo]
    rw [bump_eq_of_ne sw.requester_id _ uo (by simpa [hido] using fun e => hne e.symm)]
    rw [bump_eq_of_eq userId _ _ (by simpa using hido)]
  · have hmr : sw.requester_id ∈ st.users.map (fun v => v.id) := by
      rw [← hidr]
      exact List.mem_map_of_mem _ (List.mem_of_find?_eq_some hur)
    have hmo : userId ∈ st.users.map (fun v => v.id) := by
      rw [← hido]
      exact List.mem_map_of_mem _ (List.mem_of_find?_eq_some huo)
    simp only [totalPoints, husers]
    rw [sum_incPoints _ _ _ (by rw [incPoints_map_id]; exact hnd) (by rw [incPoints_map_id]; exact hmo),
      sum_incPoints _ _ _ hnd hmr]
    ring
  · have hswid : sw.id = sid := findSwap_id hsw
    unfold findSwap at hsw ⊢
    simp only [hacc]
    rw [find?_setSwapStatus, hsw, Option.map_some', patchSwap_eq_of_eq sid "completed" sw hswid]

/-- C7: when create is called with points_offered at least the target item's
valuation but the requester's balance is below that valuation, it fails with
the insufficient-points error reporting both the required amount and the
available balance, and the state is completely unchanged. -/
theorem create_insufficient_points_no_state_change
    (st : St) (rid iid : Nat) (po : Int) (msg : String)
    (item : Item) (u o : User)
    (hitem : findItem st iid = some item)
    (hava : item.status = "available")
    (ho : findUser st item.user_id = some o)
    (howner : item.user_id ≠ rid)
    (hdup : hasPendingSwap st rid iid = false)
    (hthr : (item.points : Int) ≤ po)
    (hu : findUser st rid = some u)
    (hlt : u.points < (item.points : Int)) :
    createSwap st rid iid none po msg = (st, insufficientResp item.points u.points) :=
  createSwap_insufficient st rid iid po msg item u o hitem hava ho howner hdup hthr hu hlt

/-- C8: a swap in a terminal status (completed, declined or cancelled) never
mutates again: a further accept or decline by the item owner and a further
cancel by the requester each return the no-longer-pending error and leave the
whole state unchanged. -/
theorem terminal_swap_immutable
    (st : St) (sid : Nat) (sw : Swap) (item : Item)
    (hsw : findSwap st sid = some sw)
    (hit : findItem st sw.item_id = some item)
    (hterm : sw.status = "completed" ∨ sw.status = "declined" ∨ sw.status = "cancelled") :
    acceptSwap st item.user_id sid = (st, errResp 400 "Swap request is no longer pending") ∧
    declineSwap st item.user_id sid = (st, errResp 400 "Swap request is no longer pending") ∧
    cancelSwap st sw.requester_id sid = (st, errResp 400 "Swap request is no longer pending") := by
  have hnp : sw.status ≠ "pending" := by
    rcases hterm with h | h | h <;> rw [h] <;> decide
  exact ⟨acceptSwap_not_pending st item.user_id sid sw item hsw hit rfl hnp,
    declineSwap_not_pending st item.user_id sid sw item hsw hit rfl hnp,
    cancelSwap_not_pending st sw.requester_id sid sw hsw rfl hnp⟩

/-- C9: the duplicate-request guard only considers pending swaps: once every
prior swap of this requester for this item is declined or cancelled, a new
create against the same still-available item succeeds and appends a fresh
swap in status pending. -/
theorem duplicate_guard_only_pending
    (st : St) (rid iid : Nat) (po : Int) (msg : String)
    (item : Item) (o : User)
    (hitem : findItem st iid = some item)
    (hava : item.status = "available")
    (ho : findUser st item.user_id = some o)
    (howner : item.user_id ≠ rid)
    (hprior : ∀ sw ∈ st.swaps, sw.requester_id = rid → sw.item_id = iid →
      sw.status = "declined" ∨ sw.status = "cancelled")
    (hlt : po < (item.points : Int))
    (hpo : 0 ≤ po)
    (hmsg : (trimString msg).length ≤ 500) :
    (createSwap st rid iid none po msg).2
        = createdResp st.nextSwapId "Swap request created successfully" ∧
    (createSwap st rid iid none po msg).1.swaps
        = st.swaps ++ [newSwap st.nextSwapId rid iid none po msg] ∧
    (newSwap st.nextSwapId rid iid none po msg).status = "pending" := by
  have hdup : hasPendingSwap st rid iid = false := by
    unfold hasPendingSwap
    rw [List.any_eq_false]
    intro sw hmem hp
    simp only [Bool.and_eq_true, beq_iff_eq] at hp
    rcases hprior sw hmem hp.1.1 hp.1.2 with h | h <;> rw [h] at hp <;> exact absurd hp.2 (by decide)
  have hcr := createSwap_request_success st rid iid po msg item o hitem hava ho howner hdup hlt hpo hmsg
  rw [hcr]
  exact ⟨rfl, rfl, rfl⟩

/-- C10: an available item with valuation 0 is redeemed by a create call that
passes points_offered = 0 (the threshold 0 ≥ 0 holds): the item's status
becomes swapped even though both the requester's and the owner's balances
change by 0. -/
theorem zero_valuation_redeems
    (st : St) (rid iid : Nat) (msg : String)
    (item : Item) (u o : User)
    (hitem : findItem st iid = some item)
    (hava : item.status = "available")
    (ho : findUser st item.user_id = some o)
    (howner : item.user_id ≠ rid)
    (hdup : hasPendingSwap st rid iid = false)
    (hu : findUser st rid = some u)
    (hzero : item.points = 0)
    (hbal : 0 ≤ u.points) :
    itemStatus (createSwap st rid iid none 0 msg).1 iid = some "swapped" ∧
    userPoints (createSwap st rid iid none 0 msg).1 rid = u.points ∧
    userPoints (createSwap st rid iid none 0 msg).1 item.user_id = o.points := by
  have hthr : (item.points : Int) ≤ 0 := by rw [hzero]; rfl
  have hbal2 : (item.points : Int) ≤ u.points := by rw [hzero]; exact_mod_cast hbal
  have hcr := createSwap_redeems st rid iid 0 msg item u o hitem hava ho howner hdup hthr hu hbal2
  have husers : (createSwap st rid iid none 0 msg).1.users
      = incPoints (incPoints st.users rid (-(item.points : Int))) item.user_id ((item.points : Int)) := by
    rw [hcr, finishCreate_users]
    rfl
  have hitems : (createSwap st rid iid none 0 msg).1.items
      = setItemStatus st.items iid "swapped" := by
    rw [hcr, finishCreate_items]
    rfl
  have hidu : u.id = rid := findUser_id hu
  have hido : o.id = item.user_id := findUser_id ho
  have hidi : item.id = iid := findItem_id hitem
  have hneq : rid ≠ item.user_id := fun e => howner e.symm
  unfold findUser at hu ho
  unfold findItem at hitem
  refine ⟨?_, ?_, ?_⟩
  · simp only [itemStatus, findItem, hitems]
    rw [find?_setItemStatus, hitem, Option.map_some', patchItem_eq_of_eq iid "swapped" item hidi]
    rfl
  · simp only [userPoints, findUser, husers]
    rw [find?_points_double_inc st.users rid item.user_id rid (-(item.points : Int)) ((item.points : Int)) u hu]
    rw [bump_eq_of_eq rid (-(item.points : Int)) u hidu]
    rw [bump_eq_of_ne item.user_id ((item.points : Int)) _ (by simpa [hidu] using hneq)]
    simp [hzero]
  · simp only [userPoints, findUser, husers]
    rw [find?_points_double_inc st.users rid item.user_id item.user_id (-(item.points : Int)) ((item.points : Int)) o ho]
    rw [bump_eq_of_ne rid (-(item.points : Int)) o (by simpa [hido] using howner)]
    rw [bump_eq_of_eq item.user_id ((item.points : Int)) o hido]
    simp [hzero]

/-! ### Concrete states used to evaluate the handlers -/

/-- Scenario A of the spec: item valued 150, owner (id 2) balance 0,
requester (id 1) balance 200. -/
def stScenarioA : St :=
  { users := [{ id := 1, points := 200, level := "Fashion Enthusiast" },
              { id := 2, points := 0, level := "Newcomer" }],
    items := [{ id := 10, user_id := 2, title := "Jacket", points := 150, status := "available" }],
    swaps := [], activities := [], nextSwapId := 5 }

/-- An item that is already `swapped` while a stale pending swap for it is
still on file (e.g. another requester redeemed it first). -/
def stStalePending : St :=
  { users := [{ id := 1, points := 0, level := "Newcomer" },
              { id := 2, points := 0, level := "Newcomer" }],
    items := [{ id := 10, user_id := 2, title := "Jacket", points := 100, status := "swapped" }],
    swaps := [{ id := 5, requester_id := 1, item_id := 10, offered_item_id := none, status := "pending", points_offered := 0, message := "" }],
    activities := [], nextSwapId := 6 }

/-- Balances straddling the 100-point level threshold: the owner (id 2) at 90
points and the requester (id 1) at 150 points, around an item valued 100. -/
def stLevels : St :=
  { users := [{ id := 1, points := 150, level := "Fashion Enthusiast" },
              { id := 2, points := 90, level := "Newcomer" }],
    items := [{ id := 10, user_id := 2, title := "Jacket", points := 100, status := "available" }],
    swaps := [], activities := [], nextSwapId := 5 }

/-- C1: the spec demands that once an item is `swapped`, every later
settlement attempt — including accept of a still-pending swap on it — fails
with the item-unavailable error and changes nothing. The accept handler
never consults the item's status: on a state whose item is already swapped
it completes the stale pending swap and pays the bonus to both parties. -/
theorem accept_settles_already_swapped_item :
    itemStatus stStalePending 10 = some "swapped" ∧
    (acceptSwap stStalePending 2 5).2 = msgResp 200 "Swap request accepted successfully" ∧
    userPoints (acceptSwap stStalePending 2 5).1 1 = 10 ∧
    userPoints (acceptSwap stStalePending 2 5).1 2 = 10 ∧
    swapStatus (acceptSwap stStalePending 2 5).1 5 = some "completed" := by
  decide

/-- C2: the spec says an immediate redemption creates the Swap already in
status `completed`; the route passes no status, so the schema default
`pending` is stored — even as the same call flips the item to `swapped`. -/
theorem redemption_swap_created_pending :
    itemStatus (createSwap stScenarioA 1 10 none 150 "").1 10 = some "swapped" ∧
    swapStatus (createSwap stScenarioA 1 10 none 150 "").1 5 = some "pending" ∧
    ¬ swapStatus (createSwap stScenarioA 1 10 none 150 "").1 5 = some "completed" := by
  decide

/-- C3: the spec says a successful redemption appends exactly one Activity of
type `point_redemption`; that type is missing from the Activity schema enum,
so the `activity.save()` throws, no entry is persisted, and the request ends
in the catch branch with a 500 — after the settlement writes went through. -/
theorem redemption_activity_rejected_by_schema :
    activityTypeEnum.contains "point_redemption" = false ∧
    (createSwap stScenarioA 1 10 none 150 "").1.activities = [] ∧
    (createSwap stScenarioA 1 10 none 150 "").2 = errResp 500 "Failed to create swap request" := by
  decide

/-- C4: the spec says both settlement paths re-derive the level of every user
whose points they change; the settlement writes are bare `$inc` updates that
never call `updateLevel`, so after a redemption both parties keep their old
stored level even when their new balance derives a different tier. -/
theorem settlement_does_not_rederive_levels :
    userPoints (createSwap stLevels 1 10 none 100 "").1 2 = 190 ∧
    userLevel (createSwap stLevels 1 10 none 100 "").1 2 = some "Newcomer" ∧
    (updateLevel { id := 2, points := 190, level := "Newcomer" }).level = "Fashion Enthusiast" ∧
    userPoints (createSwap stLevels 1 10 none 100 "").1 1 = 50 ∧
    userLevel (createSwap stLevels 1 10 none 100 "").1 1 = some "Fashion Enthusiast" ∧
    (updateLevel { id := 1, points := 50, level := "Fashion Enthusiast" }).level = "Newcomer" := by
  decide

/-! ### Witnesses: the hypothesis-bearing theorems at concrete inputs -/

/-- Scenario B of the spec: item valued 150, requester balance only 100. -/
def stScenarioB : St :=
  { users := [{ id := 1, points := 100, level := "Fashion Enthusiast" },
              { id := 2, points := 0, level := "Newcomer" }],
    items := [{ id := 10, user_id := 2, title := "Jacket", points := 150, status := "available" }],
    swaps := [], activities := [], nextSwapId := 5 }

/-- Scenario C of the spec: pending swap 5 by requester 1 on an item valued
200 owned by user 2; both balances 0. -/
def stScenarioC : St :=
  { users := [{ id := 1, points := 0, level := "Newcomer" },
              { id := 2, points := 0, level := "Newcomer" }],
    items := [{ id := 10, user_id := 2, title := "Coat", points := 200, status := "available" }],
    swaps := [{ id := 5, requester_id := 1, item_id := 10, offered_item_id := none, status := "pending", points_offered := 0, message := "" }],
    activities := [], nextSwapId := 6 }

/-- A declined swap 5 between requester 1 and item 10 owned by user 2. -/
def stTerminal : St :=
  { users := [{ id := 1, points := 0, level := "Newcomer" },
              { id := 2, points := 0, level := "Newcomer" }],
    items := [{ id := 10, user_id := 2, title := "Jacket", points := 100, status := "available" }],
    swaps := [{ id := 5, requester_id := 1, item_id := 10, offered_item_id := none, status := "declined", points_offered := 0, message := "" }],
    activities := [], nextSwapId := 6 }

/-- A prior declined swap 4 by requester 1 on the still-available item 10. -/
def stRetry : St :=
  { users := [{ id := 1, points := 50, level := "Newcomer" },
              { id := 2, points := 0, level := "Newcomer" }],
    items := [{ id := 10, user_id := 2, title := "Jacket", points := 100, status := "available" }],
    swaps := [{ id := 4, requester_id := 1, item_id := 10, offered_item_id := none, status := "declined", points_offered := 0, message := "" }],
    activities := [], nextSwapId := 7 }

/-- An available item valued 0 owned by user 2; requester 1 has balance 0. -/
def stFreebie : St :=
  { users := [{ id := 1, points := 0, level := "Newcomer" },
              { id := 2, points := 0, level := "Newcomer" }],
    items := [{ id := 10, user_id := 2, title := "Scarf", points := 0, status := "available" }],
    swaps := [], activities := [], nextSwapId := 5 }

/-- Witness for C5 at Scenario A: requester 200 → 50, owner 0 → 150, total
points conserved. -/
theorem redemption_balance_conservation_witness :
    userPoints (createSwap stScenarioA 1 10 none 150 "").1 1 = 50 ∧
    userPoints (createSwap stScenarioA 1 10 none 150 "").1 2 = 150 ∧
    totalPoints (createSwap stScenarioA 1 10 none 150 "").1 = totalPoints stScenarioA := by
  have h := redemption_balance_conservation stScenarioA 1 10 150 ""
    { id := 10, user_id := 2, title := "Jacket", points := 150, status := "available" }
    { id := 1, points := 200, level := "Fashion Enthusiast" }
    { id := 2, points := 0, level := "Newcomer" }
    rfl rfl rfl (by decide) rfl (by decide) rfl (by decide) (by decide)
  exact ⟨by simpa using h.1, by simpa using h.2.1, h.2.2⟩

/-- Witness for C6 at Scenario C: accepting a pending swap on an item valued
200 awards 20 to each party, adds 40 to the system total, and only flips the
swap's status. -/
theorem accept_bonus_award_witness :
    userPoints (acceptSwap stScenarioC 2 5).1 1 = 20 ∧
    userPoints (acceptSwap stScenarioC 2 5).1 2 = 20 ∧
    totalPoints (acceptSwap stScenarioC 2 5).1 = totalPoints stScenarioC + 40 ∧
    swapStatus (acceptSwap stScenarioC 2 5).1 5 = some "completed" := by
  have h := accept_bonus_award stScenarioC 2 5
    { id := 5, requester_id := 1, item_id := 10, offered_item_id := none, status := "pending", points_offered := 0, message := "" }
    { id := 10, user_id := 2, title := "Coat", points := 200, status := "available" }
    { id := 1, points := 0, level := "Newcomer" }
    { id := 2, points := 0, level := "Newcomer" }
    rfl rfl rfl rfl rfl rfl (by decide) (by decide)
  refine ⟨by simpa [pointsToAward] using h.1, by simpa [pointsToAward] using h.2.1,
    by simpa [pointsToAward] using h.2.2.1, ?_⟩
  simp [swapStatus, h.2.2.2]

/-- Witness for C7 at Scenario B: the insufficient-points error reports
required 150 and available 100, and the state is untouched. -/
theorem create_insufficient_points_witness :
    createSwap stScenarioB 1 10 none 150 "" = (stScenarioB, insufficientResp 150 100) := by
  have h := create_insufficient_points_no_state_change stScenarioB 1 10 150 ""
    { id := 10, user_id := 2, title := "Jacket", points := 150, status := "available" }
    { id := 1, points := 100, level := "Fashion Enthusiast" }
    { id := 2, points := 0, level := "Newcomer" }
    rfl rfl rfl (by decide) rfl (by decide) rfl (by decide)
  exact h

/-- Witness for C8 on a declined swap: accept and decline by the owner and
cancel by the requester all report no-longer-pending and change nothing. -/
theorem terminal_swap_immutable_witness :
    acceptSwap stTerminal 2 5 = (stTerminal, errResp 400 "Swap request is no longer pending") ∧
    declineSwap stTerminal 2 5 = (stTerminal, errResp 400 "Swap request is no longer pending") ∧
    cancelSwap stTerminal 1 5 = (stTerminal, errResp 400 "Swap request is no longer pending") := by
  have h := terminal_swap_immutable stTerminal 5
    { id := 5, requester_id := 1, item_id := 10, offered_item_id := none, status := "declined", points_offered := 0, message := "" }
    { id := 10, user_id := 2, title := "Jacket", points := 100, status := "available" }
    rfl rfl (Or.inr (Or.inl rfl))
  exact h

/-- Witness for C9: after swap 4 was declined, requester 1 can create a fresh
pending swap 7 for the same item. -/
theorem duplicate_guard_only_pending_witness :
    (createSwap stRetry 1 10 none 0 "again").2
        = createdResp 7 "Swap request created successfully" ∧
    (createSwap stRetry 1 10 none 0 "again").1.swaps
        = stRetry.swaps ++ [newSwap 7 1 10 none 0 "again"] ∧
    (newSwap 7 1 10 none 0 "again").status = "pending" := by
  have h := duplicate_guard_only_pending stRetry 1 10 0 "again"
    { id := 10, user_id := 2, title := "Jacket", points := 100, status := "available" }
    { id := 2, points := 0, level := "Newcomer" }
    rfl rfl rfl (by decide) (by decide) (by decide) (by decide) (by decide)
  exact h

/-- Witness for C10: a 0-point item is redeemed with points_offered = 0; the
item flips to swapped while both balances stay 0. -/
theorem zero_valuation_redeems_witness :
    itemStatus (createSwap stFreebie 1 10 none 0 "").1 10 = some "swapped" ∧
    userPoints (createSwap stFreebie 1 10 none 0 "").1 1 = 0 ∧
    userPoints (createSwap stFreebie 1 10 none 0 "").1 2 = 0 := by
  have h := zero_valuation_redeems stFreebie 1 10 ""
    { id := 10, user_id := 2, title := "Scarf", points := 0, status := "available" }
    { id := 1, points := 0, level := "Newcomer" }
    { id := 2, points := 0, level := "Newcomer" }
    rfl rfl rfl (by decide) rfl rfl rfl (by decide)
  exact h

end ReWear
